import Mathlib

/-! Verification of the catshield session-control logic against src/main.rs,
shallowly embedded: the chord table and parser, the exact-match chord check,
the event-tap callback decision, the periodic timer callback, and the
startup configuration path. Machine reals (f64) are modelled by ℚ and u64 by
ℕ with explicit saturation/wrapping where it matters. -/

deriving instance DecidableEq for Except

/-- Single-quote character as a string (used in error messages and the key table). -/
def sqStr : String := String.singleton (Char.ofNat 39)

/-- Backtick character as a string (used in the key table). -/
def bqStr : String := String.singleton (Char.ofNat 96)

/-- ASCII lowering of a character list; models str::to_lowercase on the ASCII
inputs the code deals with. -/
def lowerChars (cs : List Char) : List Char := cs.map Char.toLower

/-- String lowering via lowerChars. -/
def strLower (s : String) : String := ⟨lowerChars s.data⟩

/-- Drop leading whitespace characters. -/
def dropLeadingWs : List Char → List Char
  | [] => []
  | c :: cs => if c.isWhitespace then dropLeadingWs cs else c :: cs

/-- Trim whitespace at both ends; models str::trim. -/
def trimChars (cs : List Char) : List Char :=
  dropLeadingWs (dropLeadingWs cs.reverse).reverse

/-- String trim via trimChars. -/
def strTrim (s : String) : String := ⟨trimChars s.data⟩

/-- Split a character list on a separator character; models str::split(sep),
which yields one (possibly empty) piece per separator gap. -/
def splitChars (sep : Char) : List Char → List (List Char)
  | [] => [[]]
  | c :: rest =>
    let r := splitChars sep rest
    if c = sep then [] :: r
    else
      match r with
      | [] => [[c]]
      | h :: t => (c :: h) :: t

/-- keycode_from_name from src/main.rs: the static macOS virtual-key-code
lookup table; unmapped names give none. -/
def keycode_from_name (name : String) : Option Int :=
  let n := strLower name
  if n = sqStr ∨ n = "\"" then some 39
  else if n = bqStr ∨ n = "~" then some 50
  else
    match n with
    | "a" => some 0
    | "s" => some 1
    | "d" => some 2
    | "f" => some 3
    | "h" => some 4
    | "g" => some 5
    | "z" => some 6
    | "x" => some 7
    | "c" => some 8
    | "v" => some 9
    | "b" => some 11
    | "q" => some 12
    | "w" => some 13
    | "e" => some 14
    | "r" => some 15
    | "y" => some 16
    | "t" => some 17
    | "1" | "!" => some 18
    | "2" | "@" => some 19
    | "3" | "#" => some 20
    | "4" | "$" => some 21
    | "6" | "^" => some 22
    | "5" | "%" => some 23
    | "=" | "+" => some 24
    | "9" | "(" => some 25
    | "7" | "&" => some 26
    | "-" | "_" => some 27
    | "8" | "*" => some 28
    | "0" | ")" => some 29
    | "]" | "\x7d" => some 30
    | "o" => some 31
    | "u" => some 32
    | "[" | "\x7b" => some 33
    | "i" => some 34
    | "p" => some 35
    | "l" => some 37
    | "j" => some 38
    | "k" => some 40
    | ";" | ":" => some 41
    | "\\" | "|" => some 42
    | "," | "<" => some 43
    | "/" | "?" => some 44
    | "n" => some 45
    | "m" => some 46
    | "." | ">" => some 47
    | "return" | "enter" => some 36
    | "tab" => some 48
    | "space" => some 49
    | "delete" | "backspace" => some 51
    | "escape" | "esc" => some 53
    | "f1" => some 122
    | "f2" => some 120
    | "f3" => some 99
    | "f4" => some 118
    | "f5" => some 96
    | "f6" => some 97
    | "f7" => some 98
    | "f8" => some 100
    | "f9" => some 101
    | "f10" => some 109
    | "f11" => some 103
    | "f12" => some 111
    | "home" => some 115
    | "end" => some 119
    | "pageup" => some 116
    | "pagedown" => some 121
    | "left" | "leftarrow" => some 123
    | "right" | "rightarrow" => some 124
    | "down" | "downarrow" => some 125
    | "up" | "uparrow" => some 126
    | _ => none

/-- Parsed exit key combination (struct ExitKey in src/main.rs). -/
structure ExitKey where
  keycode : Int
  requires_cmd : Bool
  requires_option : Bool
  requires_shift : Bool
  requires_ctrl : Bool
  display_name : String
  deriving DecidableEq

/-- DEFAULT_EXIT_KEY from src/main.rs. -/
def DEFAULT_EXIT_KEY : String := "Cmd+Option+U"

/-- The Default instance for ExitKey: Cmd+Option+U. -/
def ExitKey.default : ExitKey :=
  { keycode := 32
    requires_cmd := true
    requires_option := true
    requires_shift := false
    requires_ctrl := false
    display_name := DEFAULT_EXIT_KEY }

/-- Accumulator of the token-classification loop in ExitKey::parse: the four
modifier flags collected so far and the key token seen so far, if any. -/
structure ChordAcc where
  requires_cmd : Bool
  requires_option : Bool
  requires_shift : Bool
  requires_ctrl : Bool
  key_name : Option String
  deriving DecidableEq

/-- The token-classification loop of ExitKey::parse: modifiers set flags, the
first non-modifier token becomes the key, a second non-modifier token is an
error. -/
def classify_tokens : List String → ChordAcc → Except String ChordAcc
  | [], acc => .ok acc
  | part :: rest, acc =>
    let lower := strLower part
    if lower = "cmd" ∨ lower = "command" ∨ lower = "⌘" then
      classify_tokens rest { acc with requires_cmd := true }
    else if lower = "opt" ∨ lower = "option" ∨ lower = "alt" ∨ lower = "⌥" then
      classify_tokens rest { acc with requires_option := true }
    else if lower = "shift" ∨ lower = "⇧" then
      classify_tokens rest { acc with requires_shift := true }
    else if lower = "ctrl" ∨ lower = "control" ∨ lower = "⌃" then
      classify_tokens rest { acc with requires_ctrl := true }
    else
      match acc.key_name with
      | some k =>
        .error ("Multiple keys specified: " ++ sqStr ++ k ++ sqStr ++ " and " ++ sqStr ++ part ++ sqStr)
      | none => classify_tokens rest { acc with key_name := some part }

/-- The tail of ExitKey::parse after the classification loop: require a key
token, look it up in the keycode table, require at least one modifier, and
build the ExitKey. -/
def build_exit_key (input : String) (acc : ChordAcc) : Except String ExitKey :=
  match acc.key_name with
  | none => .error ("No key specified in combination")
  | some key_name =>
    match keycode_from_name key_name with
    | none =>
      .error ("Unknown key: " ++ sqStr ++ key_name ++ sqStr ++
        ". Valid keys include: A-Z, 0-9, F1-F12, Escape, Return, Tab, Space, Delete, Arrow keys")
    | some keycode =>
      if !acc.requires_cmd && !acc.requires_option && !acc.requires_shift && !acc.requires_ctrl then
        .error ("At least one modifier key required (Cmd, Option, Shift, or Ctrl)")
      else
        .ok { keycode := keycode
              requires_cmd := acc.requires_cmd
              requires_option := acc.requires_option
              requires_shift := acc.requires_shift
              requires_ctrl := acc.requires_ctrl
              display_name := input }

/-- The body of ExitKey::parse on the split token list: the empty-parts
guard, the classification loop and the final validation/build. -/
def parse_tokens (input : String) (parts : List String) : Except String ExitKey :=
  if parts.isEmpty then .error ("Invalid key combination format")
  else
    match classify_tokens parts ⟨false, false, false, false, none⟩ with
    | .error e => .error e
    | .ok acc => build_exit_key input acc

/-- ExitKey::parse from src/main.rs: parse a combination string such as
Cmd+Option+U into an ExitKey, or report a parse error. -/
def ExitKey.parse (input : String) : Except String ExitKey :=
  if (strTrim input).data.isEmpty then .error ("Exit key cannot be empty")
  else
    parse_tokens (strTrim input)
      ((splitChars '+' (strTrim input).data).map (fun cs => String.mk (trimChars cs)))

/-- Modifier flags carried by a key event: the four CGEventFlags masks the
code inspects (command, alternate, shift, control) plus one bit standing for
every flag bit the code does not inspect (caps lock, fn, ...). -/
structure EventFlags where
  cmd : Bool
  option : Bool
  shift : Bool
  ctrl : Bool
  other : Bool
  deriving DecidableEq

/-- check_exit_key from src/main.rs: keycode equality first, then exact
equality between each required-modifier flag and the corresponding event
flag. -/
def check_exit_key (cfg : ExitKey) (keycode : Int) (flags : EventFlags) : Bool :=
  if keycode ≠ cfg.keycode then false
  else
    (cfg.requires_cmd == flags.cmd) &&
    (cfg.requires_option == flags.option) &&
    (cfg.requires_shift == flags.shift) &&
    (cfg.requires_ctrl == flags.ctrl)

/-- The CGEventType values the tap callback distinguishes, plus the other
event types a tap can observe. -/
inductive CGEventType where
  | null
  | leftMouseDown
  | leftMouseUp
  | rightMouseDown
  | rightMouseUp
  | mouseMoved
  | leftMouseDragged
  | rightMouseDragged
  | keyDown
  | keyUp
  | flagsChanged
  | scrollWheel
  | otherMouseDown
  | otherMouseUp
  | otherMouseDragged
  | tapDisabledByTimeout
  | tapDisabledByUserInput
  deriving DecidableEq

/-- A captured event: its CGEventType, its keyboard keycode field and its
modifier flags. -/
structure CGEventModel where
  etype : CGEventType
  keycode : Int
  flags : EventFlags
  deriving DecidableEq

/-- Outcome of one invocation of the event-tap callback: whether
CGEventTapEnable was called, whether app termination was requested, and the
returned event (none models returning NULL, i.e. suppression). -/
structure TapCallbackResult where
  reenabled : Bool
  terminated : Bool
  output : Option CGEventModel
  deriving DecidableEq

/-- event_tap_callback from src/main.rs as a pure function: cfg is the exit
key held in the EXIT_KEY_* atomics and tapStored says whether the EVENT_TAP
pointer is non-null (it is, whenever the callback is installed). -/
def event_tap_callback (cfg : ExitKey) (tapStored : Bool) (e : CGEventModel) :
    TapCallbackResult :=
  if e.etype = CGEventType.tapDisabledByTimeout ∨ e.etype = CGEventType.tapDisabledByUserInput then
    { reenabled := tapStored, terminated := false, output := some e }
  else if e.etype = CGEventType.keyDown ∧ check_exit_key cfg e.keycode e.flags = true then
    { reenabled := false, terminated := true, output := some e }
  else if e.etype = CGEventType.keyDown ∨ e.etype = CGEventType.keyUp ∨
      e.etype = CGEventType.flagsChanged then
    { reenabled := false, terminated := false, output := none }
  else
    { reenabled := false, terminated := false, output := some e }

/-- HOLD_DURATION_SECS from src/main.rs (required close-button hold). -/
def HOLD_DURATION_SECS : ℚ := 3

/-- MIN_TIMER_SECONDS from src/main.rs. -/
def MIN_TIMER_SECONDS : ℕ := 60

/-- MAX_TIMER_SECONDS from src/main.rs. -/
def MAX_TIMER_SECONDS : ℕ := 24 * 60 * 60

/-- WARNING_SECONDS from src/main.rs (warn one minute before exit). -/
def WARNING_SECONDS : ℕ := 60

/-- u64::MAX. -/
def U64_MAX : ℕ := 2 ^ 64 - 1

/-- calculate_hold_progress from src/main.rs: elapsed over duration, clamped
above by 1; exact rational arithmetic stands in for f64. -/
def calculate_hold_progress (elapsed_secs hold_duration_secs : ℚ) : ℚ :=
  min (elapsed_secs / hold_duration_secs) 1

/-- is_hold_complete from src/main.rs: the hold is complete when the elapsed
time has reached the required duration. -/
def is_hold_complete (elapsed_secs hold_duration_secs : ℚ) : Bool :=
  decide (hold_duration_secs ≤ elapsed_secs)

/-- get_remaining_seconds from src/main.rs, as a function of the globals it
reads and the wall-clock second count; ℕ subtraction is truncated exactly as
u64::saturating_sub is. -/
def get_remaining_seconds (enabled : Bool) (start duration now : ℕ) : ℕ :=
  if !enabled then U64_MAX
  else duration - (now - start)

/-- The state timer_callback reads and writes: the thread-local close-button
hold state (MOUSE_DOWN_TIME as a press instant, IS_MOUSE_INSIDE) and the
AUTO_EXIT_* / WARNING_SHOWN atomics. -/
structure TimerState where
  mouseDownTime : Option ℚ
  isMouseInside : Bool
  autoExitEnabled : Bool
  autoExitStart : ℕ
  autoExitDuration : ℕ
  warningShown : Bool
  deriving DecidableEq

/-- Why a tick decided to end the session. -/
inductive ExitReason where
  | holdCompleted
  | timerExpired
  deriving DecidableEq

/-- A tick either lets the session continue or requests app termination. -/
inductive TickDecision where
  | contSession
  | terminate (reason : ExitReason)
  deriving DecidableEq

/-- Outcome of one timer_callback invocation: the decision, whether the
one-shot warning was printed on this tick, and the updated state. -/
structure TimerTickResult where
  decision : TickDecision
  warningEmitted : Bool
  state : TimerState
  deriving DecidableEq

/-- The should_exit_from_button computation at the top of timer_callback. -/
def should_exit_from_button (st : TimerState) (nowMono : ℚ) : Bool :=
  match st.mouseDownTime with
  | some start => st.isMouseInside && is_hold_complete (nowMono - start) HOLD_DURATION_SECS
  | none => false

/-- timer_callback from src/main.rs as a pure function of the globals it
reads, the monotonic instant (feeding Instant::elapsed) and the wall-clock
second count. The Rust short-circuit remaining <= WARNING_SECONDS &&
!WARNING_SHOWN.swap(true) runs the swap only when the threshold test holds,
and it runs before the expiry test. -/
def timer_callback (st : TimerState) (nowMono : ℚ) (nowWall : ℕ) : TimerTickResult :=
  if should_exit_from_button st nowMono then
    { decision := TickDecision.terminate ExitReason.holdCompleted
      warningEmitted := false
      state := st }
  else if st.autoExitEnabled then
    let remaining :=
      get_remaining_seconds st.autoExitEnabled st.autoExitStart st.autoExitDuration nowWall
    let emit := decide (remaining ≤ WARNING_SECONDS) && !st.warningShown
    let st' := if remaining ≤ WARNING_SECONDS then { st with warningShown := true } else st
    if remaining = 0 then
      { decision := TickDecision.terminate ExitReason.timerExpired
        warningEmitted := emit
        state := st' }
    else
      { decision := TickDecision.contSession, warningEmitted := emit, state := st' }
  else
    { decision := TickDecision.contSession, warningEmitted := false, state := st }

/-- Iterate timer_callback over a list of wall-clock tick times, threading the
state; the monotonic clock is irrelevant while the hold gesture is idle, so it
is fixed at 0. -/
def runTicks (st : TimerState) : List ℕ → List TimerTickResult
  | [] => []
  | t :: ts =>
    let r := timer_callback st 0 t
    r :: runTicks r.state ts

/-- Specification-side definition, following the spec words for the warning
invariant: across a sequence of ticks the warning fires exactly on the first
tick whose remaining time is at or below the 60-second threshold, and on no
other tick. -/
def spec_warning_pattern (rem : ℕ → ℕ) : List ℕ → List Bool
  | [] => []
  | t :: ts =>
    if rem t ≤ 60 then true :: ts.map (fun _ => false)
    else false :: spec_warning_pattern rem ts

/-- Accumulated digit characters to a number (current_num.parse in Rust);
call sites only pass non-empty all-digit strings. -/
def digitsToNat : List Char → ℕ → ℕ
  | [], acc => acc
  | c :: cs, acc => digitsToNat cs (acc * 10 + (c.toNat - 48))

/-- u64 parse of an accumulated digit string: fails past u64::MAX exactly as
current_num.parse::<u64>() does. -/
def parse_u64 (cs : List Char) : Except String ℕ :=
  let n := digitsToNat cs 0
  if n ≤ U64_MAX then .ok n else .error ("Invalid number: " ++ String.mk cs)

/-- Wrapping u64 addition (release-mode Rust overflow semantics). -/
def u64add (a b : ℕ) : ℕ := (a + b) % 2 ^ 64

/-- Wrapping u64 multiplication (release-mode Rust overflow semantics). -/
def u64mul (a b : ℕ) : ℕ := (a * b) % 2 ^ 64

/-- The character loop of parse_duration: digits accumulate, unit characters
h / m / s convert and add, whitespace is skipped, anything else errors. -/
def parse_duration_loop : List Char → ℕ → List Char → Except String (ℕ × List Char)
  | [], total, cur => .ok (total, cur)
  | c :: cs, total, cur =>
    if c.isDigit then
      parse_duration_loop cs total (cur ++ [c])
    else if c = 'h' then
      if cur.isEmpty then .error ("Missing number before " ++ sqStr ++ "h" ++ sqStr)
      else
        match parse_u64 cur with
        | .error e => .error e
        | .ok hours => parse_duration_loop cs (u64add total (u64mul hours 3600)) []
    else if c = 'm' then
      if cur.isEmpty then .error ("Missing number before " ++ sqStr ++ "m" ++ sqStr)
      else
        match parse_u64 cur with
        | .error e => .error e
        | .ok minutes => parse_duration_loop cs (u64add total (u64mul minutes 60)) []
    else if c = 's' then
      if cur.isEmpty then .error ("Missing number before " ++ sqStr ++ "s" ++ sqStr)
      else
        match parse_u64 cur with
        | .error e => .error e
        | .ok secs => parse_duration_loop cs (u64add total secs) []
    else if !c.isWhitespace then
      .error ("Invalid character in duration: " ++ sqStr ++ String.singleton c ++ sqStr)
    else
      parse_duration_loop cs total cur

/-- parse_duration from src/main.rs: parse a duration such as 30m, 2h or
1h30m into seconds, trailing bare digits counting as minutes, then bounds
checks. -/
def parse_duration (s : String) : Except String ℕ :=
  let s := strLower (strTrim s)
  if s.data.isEmpty then .error ("Duration cannot be empty")
  else
    match parse_duration_loop s.data 0 [] with
    | .error e => .error e
    | .ok (total, cur) =>
      match
        (if cur.isEmpty then Except.ok total
         else
           match parse_u64 cur with
           | .error e => Except.error e
           | .ok minutes => Except.ok (u64add total (u64mul minutes 60))) with
      | .error e => .error e
      | .ok total_seconds =>
        if total_seconds = 0 then .error ("Duration must be greater than zero")
        else if total_seconds < MIN_TIMER_SECONDS then
          .error ("Duration must be at least " ++ toString MIN_TIMER_SECONDS ++
            " seconds (1 minute)")
        else if total_seconds > MAX_TIMER_SECONDS then
          .error ("Duration must not exceed " ++ toString MAX_TIMER_SECONDS ++
            " seconds (24 hours)")
        else .ok total_seconds

/-- The exit-key resolution in main: CLI argument beats config file beats
default, and a malformed config-file value prints a warning and falls back to
the default key instead of failing. -/
def resolve_exit_key (cliKey : Option ExitKey) (configKey : Option String) : ExitKey :=
  match cliKey with
  | some k => k
  | none =>
    match configKey with
    | some s =>
      match ExitKey.parse s with
      | .ok k => k
      | .error _ => ExitKey.default
    | none => ExitKey.default

/-- The startup configuration path of main: clap applies parse_duration and
ExitKey::parse to the CLI arguments and aborts the process on the first error
(modelled as Except.error); main then resolves the exit key against the
config file, and only afterwards does a session start. -/
def startup (timerArg exitKeyArg configKey : Option String) :
    Except String (ExitKey × Option ℕ) :=
  match (match timerArg with
         | none => Except.ok none
         | some s =>
           match parse_duration s with
           | .error e => Except.error e
           | .ok n => Except.ok (some n)) with
  | .error e => .error e
  | .ok timer =>
    match (match exitKeyArg with
           | none => Except.ok none
           | some s =>
             match ExitKey.parse s with
             | .error e => Except.error e
             | .ok k => Except.ok (some k)) with
    | .error e => .error e
    | .ok cliKey => .ok (resolve_exit_key cliKey configKey, timer)


/-- C1: for every event delivered to the tap callback — a KeyDown matching
the configured exit chord signals termination and is passed through
unchanged; otherwise any KeyDown, KeyUp or FlagsChanged event is suppressed
(no replacement event is returned); and every event of any other type is
passed through unchanged. -/
theorem c1_tap_callback_decision (cfg : ExitKey) (tapStored : Bool) (e : CGEventModel) :
    (e.etype = CGEventType.keyDown → check_exit_key cfg e.keycode e.flags = true →
      (event_tap_callback cfg tapStored e).terminated = true ∧
      (event_tap_callback cfg tapStored e).output = some e) ∧
    (¬(e.etype = CGEventType.keyDown ∧ check_exit_key cfg e.keycode e.flags = true) →
      (e.etype = CGEventType.keyDown ∨ e.etype = CGEventType.keyUp ∨
        e.etype = CGEventType.flagsChanged) →
      (event_tap_callback cfg tapStored e).output = none) ∧
    (e.etype ≠ CGEventType.keyDown → e.etype ≠ CGEventType.keyUp →
      e.etype ≠ CGEventType.flagsChanged →
      (event_tap_callback cfg tapStored e).output = some e) := by
  obtain ⟨t, kc, fl⟩ := e
  by_cases hc : check_exit_key cfg kc fl = true <;>
    cases t <;> simp [event_tap_callback, hc]

/-- Witness for C1 at concrete events: the default chord Cmd+Option+U fired
as a KeyDown requests termination; a KeyUp is suppressed; a mouse-move passes
through. -/
theorem c1_tap_callback_decision_witness :
    (event_tap_callback ExitKey.default true
      ⟨CGEventType.keyDown, 32, ⟨true, true, false, false, false⟩⟩).terminated = true ∧
    (event_tap_callback ExitKey.default true
      ⟨CGEventType.keyUp, 32, ⟨true, true, false, false, false⟩⟩).output = none ∧
    (event_tap_callback ExitKey.default true
      ⟨CGEventType.mouseMoved, 0, ⟨false, false, false, false, false⟩⟩).output =
      some ⟨CGEventType.mouseMoved, 0, ⟨false, false, false, false, false⟩⟩ := by
  refine ⟨((c1_tap_callback_decision ExitKey.default true _).1 rfl (by decide)).1, ?_, ?_⟩
  · exact (c1_tap_callback_decision ExitKey.default true _).2.1 (by decide) (by decide)
  · exact (c1_tap_callback_decision ExitKey.default true _).2.2 (by decide) (by decide) (by decide)

/-- C2: on a TapDisabledByTimeout or TapDisabledByUserInput event, with the
tap handle stored (always the case once the callback is installed), the
callback re-enables the tap within the same invocation, requests no
termination, and passes the event through; the recovery is unconditional. -/
theorem c2_tap_reenable (cfg : ExitKey) (e : CGEventModel)
    (h : e.etype = CGEventType.tapDisabledByTimeout ∨
      e.etype = CGEventType.tapDisabledByUserInput) :
    event_tap_callback cfg true e =
      { reenabled := true, terminated := false, output := some e } := by
  unfold event_tap_callback
  rw [if_pos h]

/-- Witness for C2 at a concrete revocation event. -/
theorem c2_tap_reenable_witness :
    event_tap_callback ExitKey.default true
      ⟨CGEventType.tapDisabledByTimeout, 0, ⟨false, false, false, false, false⟩⟩ =
      { reenabled := true, terminated := false,
        output := some ⟨CGEventType.tapDisabledByTimeout, 0, ⟨false, false, false, false, false⟩⟩ } :=
  c2_tap_reenable ExitKey.default _ (Or.inl rfl)

/-- C5: chord matching is exact equality on each of the four recognized
modifier flags and on the keycode, and ignores every modifier bit outside
those four; in particular the cmd+option default spec does not match a
cmd+option+shift event, whatever the unrecognized bits are. -/
theorem c5_exact_modifier_match :
    (∀ (cfg : ExitKey) (kc : Int) (fl : EventFlags),
      check_exit_key cfg kc fl = true ↔
        (kc = cfg.keycode ∧ cfg.requires_cmd = fl.cmd ∧ cfg.requires_option = fl.option ∧
         cfg.requires_shift = fl.shift ∧ cfg.requires_ctrl = fl.ctrl)) ∧
    (∀ other : Bool,
      check_exit_key ExitKey.default 32 ⟨true, true, true, false, other⟩ = false) := by
  constructor
  · intro cfg kc fl
    by_cases hk : kc = cfg.keycode <;>
      simp [check_exit_key, hk, and_assoc]
  · intro other
    cases other <;> decide

/-- Witness for C5: exact cmd+option matches regardless of an unrecognized
bit, and an extra shift defeats the match. -/
theorem c5_exact_modifier_match_witness :
    check_exit_key ExitKey.default 32 ⟨true, true, false, false, true⟩ = true ∧
    check_exit_key ExitKey.default 32 ⟨true, true, true, false, false⟩ = false :=
  ⟨(c5_exact_modifier_match.1 ExitKey.default 32 ⟨true, true, false, false, true⟩).mpr
      ⟨rfl, rfl, rfl, rfl, rfl⟩,
   c5_exact_modifier_match.2 false⟩

/-- C7: for positive duration and non-negative elapsed time the hold progress
equals min 1 (elapsed / duration), it is monotone non-decreasing in the
elapsed time, and it is exactly 1 when elapsed equals the duration. -/
theorem c7_hold_progress (d e e2 : ℚ) (hd : 0 < d) (he : 0 ≤ e) (h12 : e ≤ e2) :
    calculate_hold_progress e d = min 1 (e / d) ∧
    calculate_hold_progress e d ≤ calculate_hold_progress e2 d ∧
    calculate_hold_progress d d = 1 := by
  refine ⟨min_comm _ _, ?_, ?_⟩
  · exact min_le_min (by exact div_le_div_of_nonneg_right h12 hd.le) le_rfl
  · simp [calculate_hold_progress, div_self (ne_of_gt hd)]

/-- Witness for C7 at duration 3 and elapsed time 2. -/
theorem c7_hold_progress_witness :
    calculate_hold_progress 2 3 = min 1 (2 / 3) ∧ calculate_hold_progress 3 3 = 1 :=
  ⟨(c7_hold_progress 3 2 2 (by norm_num) (by norm_num) le_rfl).1,
   (c7_hold_progress 3 2 2 (by norm_num) (by norm_num) le_rfl).2.2⟩

/-- C8: the hold-completion predicate holds exactly when elapsed ≥ duration;
at the boundary, 2.999 s of a 3 s hold is incomplete and 3.0 s is complete. -/
theorem c8_hold_complete :
    (∀ e d : ℚ, is_hold_complete e d = true ↔ d ≤ e) ∧
    is_hold_complete (2999 / 1000) 3 = false ∧
    is_hold_complete 3 3 = true := by
  refine ⟨fun e d => by simp [is_hold_complete], by norm_num [is_hold_complete], by simp [is_hold_complete]⟩

/-- Witness for C8 at the exact boundary. -/
theorem c8_hold_complete_witness : is_hold_complete 3 3 = true :=
  c8_hold_complete.2.2

/-- C10: with no countdown armed, get_remaining_seconds returns u64::MAX; on
a tick with no countdown armed the warning/expiry branch is never entered (no
warning, no timer termination, state untouched); with a countdown armed the
remaining value is the saturating difference, hence never negative. -/
theorem c10_remaining (start dur now : ℕ) (st : TimerState) (nowMono : ℚ) (nowWall : ℕ)
    (h : st.autoExitEnabled = false) :
    get_remaining_seconds false start dur now = U64_MAX ∧
    ((timer_callback st nowMono nowWall).warningEmitted = false ∧
     (timer_callback st nowMono nowWall).decision ≠
       TickDecision.terminate ExitReason.timerExpired ∧
     (timer_callback st nowMono nowWall).state = st) ∧
    ((get_remaining_seconds true start dur now : ℤ) =
      max 0 ((dur : ℤ) - max 0 ((now : ℤ) - (start : ℤ)))) := by
  refine ⟨rfl, ?_, ?_⟩
  · unfold timer_callback
    split
    · exact ⟨rfl, by simp, rfl⟩
    · rw [h]
      refine ⟨?_, ?_, ?_⟩ <;> simp
  · simp only [get_remaining_seconds, Bool.not_true, Bool.false_eq_true, if_false]
    omega

/-- Witness for C10 with the countdown disarmed. -/
theorem c10_remaining_witness :
    get_remaining_seconds false 5 7 100 = U64_MAX ∧
    (timer_callback ⟨none, false, false, 0, 0, false⟩ 0 9).warningEmitted = false :=
  ⟨(c10_remaining 5 7 100 ⟨none, false, false, 0, 0, false⟩ 0 9 rfl).1,
   ((c10_remaining 5 7 100 ⟨none, false, false, 0, 0, false⟩ 0 9 rfl).2.1).1⟩

/-- C3 counterexample: on a tick where the countdown is expired and the
warning had not yet been shown (armed at 0 for 100 s, tick at wall-clock
100), the code terminates with TimerExpired but also emits the warning on
that same tick — the warning check runs before the expiry check —
contradicting the claim that the warning is not emitted on an expiry tick. -/
theorem c3_warning_on_expiry_cex :
    (timer_callback ⟨none, false, true, 0, 100, false⟩ 0 100).decision =
      TickDecision.terminate ExitReason.timerExpired ∧
    (timer_callback ⟨none, false, true, 0, 100, false⟩ 0 100).warningEmitted = true := by
  exact ⟨by decide, by decide⟩

/-- C3 amended: on every tick, hold-gesture completion is evaluated first;
otherwise, with a countdown armed, the one-shot warning is emitted exactly
when remaining time is at or below the threshold and the warning was not yet
shown — including on the expiry tick — and then the session terminates with
TimerExpired when remaining time is zero, else continues. -/
theorem c3_tick_order_amended (st : TimerState) (nowMono : ℚ) (nowWall : ℕ)
    (henabled : st.autoExitEnabled = true) :
    (should_exit_from_button st nowMono = true →
      timer_callback st nowMono nowWall =
        ⟨TickDecision.terminate ExitReason.holdCompleted, false, st⟩) ∧
    (should_exit_from_button st nowMono = false →
      (timer_callback st nowMono nowWall).warningEmitted =
        (decide (get_remaining_seconds true st.autoExitStart st.autoExitDuration nowWall ≤
          WARNING_SECONDS) && !st.warningShown) ∧
      (timer_callback st nowMono nowWall).decision =
        (if get_remaining_seconds true st.autoExitStart st.autoExitDuration nowWall = 0
         then TickDecision.terminate ExitReason.timerExpired
         else TickDecision.contSession)) := by
  constructor
  · intro hb
    unfold timer_callback
    rw [if_pos hb]
  · intro hb
    by_cases h0 :
        get_remaining_seconds true st.autoExitStart st.autoExitDuration nowWall = 0 <;>
      simp [timer_callback, hb, henabled, h0]

/-- Witness for C3 amended: a completed hold wins the tick, and an armed,
far-from-expiry tick continues. -/
theorem c3_tick_order_amended_witness :
    timer_callback ⟨some 0, true, true, 0, 1000, false⟩ 5 10 =
      ⟨TickDecision.terminate ExitReason.holdCompleted, false,
        ⟨some 0, true, true, 0, 1000, false⟩⟩ ∧
    (timer_callback ⟨none, false, true, 0, 1000, false⟩ 0 10).decision =
      TickDecision.contSession := by
  constructor
  · exact (c3_tick_order_amended ⟨some 0, true, true, 0, 1000, false⟩ 5 10 rfl).1
      (by norm_num [should_exit_from_button, is_hold_complete, HOLD_DURATION_SECS])
  · have h := (c3_tick_order_amended ⟨none, false, true, 0, 1000, false⟩ 0 10 rfl).2 (by decide)
    rw [h.2]
    decide

/-- C4 counterexample: the chord string U is a configuration error (no
modifier), yet coming from the config file it is not fatal — startup
succeeds, the session starting with the default chord instead. -/
theorem c4_config_error_not_fatal_cex :
    (ExitKey.parse ("U") =
      Except.error ("At least one modifier key required (Cmd, Option, Shift, or Ctrl)")) ∧
    startup none none (some ("U")) = Except.ok (ExitKey.default, none) := by
  exact ⟨by decide, by decide⟩

/-- C4 amended: a configuration error on the command line — malformed timer
duration or malformed exit chord — aborts startup with that error before any
session starts; a malformed exit chord in the config file is reported as a
warning and replaced by the default chord, and startup succeeds (the config
file carries no timer setting at all). -/
theorem c4_startup_amended :
    (∀ s ek cfg m, parse_duration s = Except.error m →
      startup (some s) ek cfg = Except.error m) ∧
    (∀ s cfg m, ExitKey.parse s = Except.error m →
      startup none (some s) cfg = Except.error m) ∧
    (∀ s m, ExitKey.parse s = Except.error m →
      startup none none (some s) = Except.ok (ExitKey.default, none)) := by
  refine ⟨?_, ?_, ?_⟩
  · intro s ek cfg m h
    simp [startup, h]
  · intro s cfg m h
    simp [startup, h]
  · intro s m h
    simp [startup, resolve_exit_key, h]

/-- Witness for C4 amended: a malformed CLI duration and a modifier-less CLI
chord are both fatal. -/
theorem c4_startup_amended_witness :
    startup (some ("abc")) none none =
      Except.error ("Invalid character in duration: " ++ sqStr ++ "a" ++ sqStr) ∧
    startup none (some ("U")) none =
      Except.error ("At least one modifier key required (Cmd, Option, Shift, or Ctrl)") :=
  ⟨c4_startup_amended.1 ("abc") none none _ (by decide),
   c4_startup_amended.2.1 ("U") none _ (by decide)⟩

/-- Any successfully built exit key has at least one modifier flag set: the
ok branch of build_exit_key sits behind the modifier check. -/
theorem build_exit_key_ok_modifier (input : String) (acc : ChordAcc) (k : ExitKey)
    (h : build_exit_key input acc = Except.ok k) :
    (k.requires_cmd || k.requires_option || k.requires_shift || k.requires_ctrl) = true := by
  unfold build_exit_key at h
  split at h
  · cases h
  · split at h
    · cases h
    · split at h
      · cases h
      · rename_i hcond
        cases h
        revert hcond
        cases acc.requires_cmd <;> cases acc.requires_option <;>
          cases acc.requires_shift <;> cases acc.requires_ctrl <;> simp

/-- C9: chord parsing never panics (it is a total function) and returns a
distinct human-readable error for empty input, missing key token, multiple
key tokens, unknown key name and zero modifiers; Cmd+Option+U parses to
exactly cmd+option with key U (keycode 32); and every successfully parsed
spec has at least one modifier flag set. -/
theorem c9_parse_errors :
    ExitKey.parse ("") = Except.error ("Exit key cannot be empty") ∧
    ExitKey.parse ("Cmd+Option") = Except.error ("No key specified in combination") ∧
    ExitKey.parse ("Cmd+A+B") =
      Except.error ("Multiple keys specified: " ++ sqStr ++ "A" ++ sqStr ++ " and " ++
        sqStr ++ "B" ++ sqStr) ∧
    ExitKey.parse ("Cmd+Option+Blorp") =
      Except.error ("Unknown key: " ++ sqStr ++ "Blorp" ++ sqStr ++
        ". Valid keys include: A-Z, 0-9, F1-F12, Escape, Return, Tab, Space, Delete, Arrow keys") ∧
    ExitKey.parse ("U") =
      Except.error ("At least one modifier key required (Cmd, Option, Shift, or Ctrl)") ∧
    List.Nodup ["Exit key cannot be empty", "No key specified in combination",
      "Multiple keys specified: " ++ sqStr ++ "A" ++ sqStr ++ " and " ++ sqStr ++ "B" ++ sqStr,
      "Unknown key: " ++ sqStr ++ "Blorp" ++ sqStr ++
        ". Valid keys include: A-Z, 0-9, F1-F12, Escape, Return, Tab, Space, Delete, Arrow keys",
      "At least one modifier key required (Cmd, Option, Shift, or Ctrl)"] ∧
    ExitKey.parse ("Cmd+Option+U") =
      Except.ok ⟨32, true, true, false, false, "Cmd+Option+U"⟩ ∧
    (∀ s k, ExitKey.parse s = Except.ok k →
      (k.requires_cmd || k.requires_option || k.requires_shift || k.requires_ctrl) = true) := by
  refine ⟨by decide, by decide, by decide, by decide, by decide, by decide, by decide, ?_⟩
  intro s k h
  unfold ExitKey.parse at h
  split at h
  · cases h
  · unfold parse_tokens at h
    split at h
    · cases h
    · split at h
      · cases h
      · exact build_exit_key_ok_modifier _ _ _ h

/-- Witness for C9: the parsed Cmd+Option+U spec indeed carries a modifier. -/
theorem c9_parse_errors_witness :
    ((⟨32, true, true, false, false, "Cmd+Option+U"⟩ : ExitKey).requires_cmd ||
     (⟨32, true, true, false, false, "Cmd+Option+U"⟩ : ExitKey).requires_option ||
     (⟨32, true, true, false, false, "Cmd+Option+U"⟩ : ExitKey).requires_shift ||
     (⟨32, true, true, false, false, "Cmd+Option+U"⟩ : ExitKey).requires_ctrl) = true :=
  c9_parse_errors.2.2.2.2.2.2.2 ("Cmd+Option+U") _ c9_parse_errors.2.2.2.2.2.2.1

/-- One timer tick with the hold gesture idle and the countdown armed, in
explicit form: the warning is emitted iff remaining ≤ 60 and not yet shown,
the flag absorbs the threshold test, and expiry decides termination. -/
theorem timer_callback_armed_idle (start dur : ℕ) (b : Bool) (t : ℕ) :
    timer_callback ⟨none, false, true, start, dur, b⟩ 0 t =
      ⟨(if dur - (t - start) = 0 then TickDecision.terminate ExitReason.timerExpired
        else TickDecision.contSession),
       (decide (dur - (t - start) ≤ 60) && !b),
       ⟨none, false, true, start, dur, b || decide (dur - (t - start) ≤ 60)⟩⟩ := by
  by_cases h0 : dur - (t - start) = 0
  · have h60 : dur - (t - start) ≤ 60 := by omega
    simp [timer_callback, should_exit_from_button, get_remaining_seconds, WARNING_SECONDS,
      h60, h0]
  · by_cases h60 : dur - (t - start) ≤ 60 <;>
      simp [timer_callback, should_exit_from_button, get_remaining_seconds, WARNING_SECONDS,
        h60, h0]

/-- After the warning flag is set, an armed idle run emits no warning on any
tick and keeps the flag set. -/
theorem runTicks_after_shown (start dur : ℕ) (ts : List ℕ) :
    (runTicks ⟨none, false, true, start, dur, true⟩ ts).map (fun r => r.warningEmitted) =
      ts.map (fun _ => false) ∧
    (runTicks ⟨none, false, true, start, dur, true⟩ ts).map (fun r => r.state.warningShown) =
      ts.map (fun _ => true) := by
  induction ts with
  | nil => exact ⟨rfl, rfl⟩
  | cons t ts ih =>
    simp only [runTicks, timer_callback_armed_idle, Bool.true_or, Bool.not_true,
      Bool.and_false, List.map_cons]
    exact ⟨by rw [ih.1], by rw [ih.2]⟩

/-- With the flag initially clear, the emissions of an armed idle run follow
the specification pattern: exactly the first tick at or below threshold. -/
theorem runTicks_warn_pattern (start dur : ℕ) (ts : List ℕ) :
    (runTicks ⟨none, false, true, start, dur, false⟩ ts).map (fun r => r.warningEmitted) =
      spec_warning_pattern (fun t => dur - (t - start)) ts := by
  induction ts with
  | nil => rfl
  | cons t ts ih =>
    by_cases h60 : dur - (t - start) ≤ 60
    · simp only [runTicks, timer_callback_armed_idle, Bool.false_or, Bool.not_false,
        Bool.and_true, List.map_cons, spec_warning_pattern]
      rw [if_pos h60, decide_eq_true h60, (runTicks_after_shown start dur ts).1]
    · simp only [runTicks, timer_callback_armed_idle, Bool.false_or, Bool.not_false,
        Bool.and_true, List.map_cons, spec_warning_pattern]
      rw [if_neg h60, decide_eq_false h60, ih]

/-- An all-false emission list contains no emission. -/
theorem count_true_map_false (ts : List ℕ) : ((ts.map fun _ => false).count true) = 0 := by
  induction ts with
  | nil => rfl
  | cons t ts ih => simpa [List.count_cons] using ih

/-- The specification pattern contains at most one emission. -/
theorem spec_warning_pattern_count (rem : ℕ → ℕ) (ts : List ℕ) :
    (spec_warning_pattern rem ts).count true ≤ 1 := by
  induction ts with
  | nil => simp [spec_warning_pattern]
  | cons t ts ih =>
    rw [spec_warning_pattern]
    split
    · rw [List.count_cons, count_true_map_false ts]
      simp
    · simpa [List.count_cons] using ih

/-- The warning flag never reverts along a tick run: once true in the state
reached after some tick, it is true after every later tick. -/
theorem timer_callback_shown_mono (st : TimerState) (nowMono : ℚ) (nowWall : ℕ)
    (h : st.warningShown = true) :
    (timer_callback st nowMono nowWall).state.warningShown = true := by
  by_cases hb : should_exit_from_button st nowMono = true
  · simp [timer_callback, hb, h]
  · by_cases ha : st.autoExitEnabled = true
    · by_cases h0 : get_remaining_seconds true st.autoExitStart
          st.autoExitDuration nowWall = 0 <;>
        by_cases h60 : get_remaining_seconds true st.autoExitStart
            st.autoExitDuration nowWall ≤ WARNING_SECONDS <;>
          simp [timer_callback, hb, ha, h0, h60, h]
    · simp [timer_callback, hb, ha, h]

/-- Along any tick run, the mapped warning-shown flags are monotone: a true
flag stays true at the next tick. -/
theorem runTicks_chain (st : TimerState) (ts : List ℕ) :
    List.Chain' (fun a b => a = true → b = true)
      ((runTicks st ts).map (fun r => r.state.warningShown)) := by
  induction ts generalizing st with
  | nil => simp [runTicks]
  | cons t ts ih =>
    rw [runTicks, List.map_cons, List.chain'_cons']
    refine ⟨?_, ih _⟩
    intro b hb
    cases ts with
    | nil => simp [runTicks] at hb
    | cons t2 ts2 =>
      rw [runTicks, List.map_cons, List.head?_cons] at hb
      cases hb
      intro hshown
      exact timer_callback_shown_mono _ _ _ hshown

/-- C6: with a countdown armed, the hold gesture idle and the warning flag
initially clear, across any sequence of ticks the warning is emitted exactly
on the first tick whose remaining time is at or below the 60-second
threshold and on no other tick (hence at most once, even if the remaining
time sits at the threshold on several consecutive ticks), and the
warning-shown flag never reverts along the run. -/
theorem c6_warning_once (start dur : ℕ) (times : List ℕ) :
    ((runTicks ⟨none, false, true, start, dur, false⟩ times).map (fun r => r.warningEmitted) =
      spec_warning_pattern (fun t => dur - (t - start)) times) ∧
    (((runTicks ⟨none, false, true, start, dur, false⟩ times).map
        (fun r => r.warningEmitted)).count true ≤ 1) ∧
    List.Chain' (fun a b => a = true → b = true)
      ((runTicks ⟨none, false, true, start, dur, false⟩ times).map
        (fun r => r.state.warningShown)) := by
  refine ⟨runTicks_warn_pattern start dur times, ?_, runTicks_chain _ times⟩
  rw [runTicks_warn_pattern]
  exact spec_warning_pattern_count _ times
